import Mathlib

/-!
Verification development for the Guardian fall-monitoring application.

The definitions below are a shallow embedding of the orchestration core of
the repository:
  * `src/services/aiService.ts` — provider adapter (`analyzeScene`,
    `analyzeCustom`, `analyzeLocal`, `validateResult`), notification
    dispatcher (`sanitizeForTTS`, `dispatchSpeak`, `speakLocally`,
    `stopSpeaking`);
  * `src/App.tsx` (revision v23, lines 1–503) — inference dispatcher and
    escalation state machine (`handleFrameAnalysis`, the countdown effect,
    the alert-overlay buttons), plus the v7 revision's
    `handleImmediateRescue` (lines 613–620 of the same file);
  * `src/unnamed/part_003` (revision v18) — `handleFrameAnalysis` with the
    warning-log catch branch;
  * `src/components/VideoDisplay.tsx` — sampling interval.

Effectful TypeScript is modelled by functions that return the ordered list
of externally visible actions the handler performs (state-setter calls,
network calls, audio operations, log appends); the resulting component
state is obtained by folding the action list over the pre-state.
JavaScript's untyped JSON values are modelled by `JsVal`, with truthiness
and the numeric coercion used by `<`/`>` made explicit.
-/

/-- A JavaScript/JSON runtime value as it can appear in a provider payload
field.  `nan` is kept apart from `num` because `ℚ` has no NaN; `obj` stands
for any plain (non-array) object. -/
inductive JsVal where
  | undef : JsVal
  | nullv : JsVal
  | boolean : Bool → JsVal
  | num : ℚ → JsVal
  | nan : JsVal
  | str : String → JsVal
  | obj : JsVal
  deriving DecidableEq, Repr

namespace JsVal

/-- JavaScript truthiness: `undefined`, `null`, `false`, `0`, `NaN` and the
empty string are falsy; every other value (including any object) is truthy. -/
def truthy : JsVal → Bool
  | undef => false
  | nullv => false
  | boolean b => b
  | num q => q ≠ 0
  | nan => false
  | str s => s ≠ ""
  | obj => true

end JsVal

/-- The ECMAScript `\s` (equivalently `WhiteSpace ∪ LineTerminator`)
character class, the one used by the source's `replace(/\s+/g, " ")`,
`trim()` and `Number(string)`: ASCII whitespace plus NBSP, the Ogham space
mark, the U+2000–U+200A spaces, the line and paragraph separators, narrow
NBSP, the medium mathematical space, the ideographic space U+3000 and the
BOM. -/
def jsWhitespace (c : Char) : Bool :=
  c = '\t' ∨ c = '\n' ∨ c = '\x0b' ∨ c = '\x0c' ∨ c = '\r' ∨ c = ' ' ∨
  c = '\xa0' ∨ c = '\u1680' ∨ (0x2000 ≤ c.toNat ∧ c.toNat ≤ 0x200a) ∨
  c = '\u2028' ∨ c = '\u2029' ∨ c = '\u202f' ∨ c = '\u205f' ∨
  c = '\u3000' ∨ c = '\ufeff'

/-- Parse a list of decimal digit characters. -/
def digitsToNat : List Char → Option ℕ
  | [] => none
  | cs => cs.foldl (fun acc c =>
      match acc with
      | none => none
      | some n => if c.isDigit then some (10 * n + (c.toNat - 48)) else none)
      (some 0)

/-- `Number(string)` on a plain decimal numeral (optional sign, optional
fractional part); any other non-empty non-numeric string coerces to NaN
(`none`).  The empty / all-whitespace string coerces to `0`. -/
def strToNum (s : String) : Option ℚ :=
  let t := (s.data.dropWhile jsWhitespace).reverse.dropWhile jsWhitespace |>.reverse
  match t with
  | [] => some 0
  | l =>
    let (sign, body) : ℚ × List Char :=
      match l with
      | '-' :: rest => (-1, rest)
      | '+' :: rest => (1, rest)
      | rest => (1, rest)
    let intPart := body.takeWhile Char.isDigit
    let afterInt := body.dropWhile Char.isDigit
    match afterInt with
    | [] =>
      match digitsToNat intPart with
      | some n => some (sign * n)
      | none => none
    | '.' :: fracPart =>
      if fracPart.all Char.isDigit ∧ (intPart ≠ [] ∨ fracPart ≠ []) then
        match digitsToNat (intPart ++ fracPart) with
        | some n => some (sign * ((n : ℚ) / (10 : ℚ) ^ fracPart.length))
        | none => none
      else none
    | _ => none

namespace JsVal

/-- JavaScript `ToNumber` as used by the relational operators; `none`
means NaN. -/
def toNum : JsVal → Option ℚ
  | undef => none
  | nullv => some 0
  | boolean b => some (if b then 1 else 0)
  | num q => some q
  | nan => none
  | str s => strToNum s
  | obj => none

/-- JavaScript `a > b`: both operands are coerced to numbers and the
comparison is false whenever either side is NaN. -/
def jsGt (a b : JsVal) : Bool :=
  match a.toNum, b.toNum with
  | some x, some y => x > y
  | _, _ => false

/-- String rendering used when a value is interpolated into a log
message.  (Only the `str` case is ever exercised by the theorems below.) -/
def render : JsVal → String
  | undef => "undefined"
  | nullv => "null"
  | boolean b => if b then "true" else "false"
  | num q => toString q
  | nan => "NaN"
  | str s => s
  | obj => "[object Object]"

end JsVal

/-- `SystemStatus` from `src/unnamed/part_001`. -/
inductive SystemStatus where
  | IDLE : SystemStatus
  | MONITORING : SystemStatus
  | ALERT : SystemStatus
  | EMERGENCY : SystemStatus
  deriving DecidableEq, Repr

/-- `InferenceMode` from `src/unnamed/part_001`. -/
inductive InferenceMode where
  | CLOUD : InferenceMode
  | LOCAL : InferenceMode
  | CUSTOM : InferenceMode
  deriving DecidableEq, Repr

/-- `ActivityLog.status` ∈ 'info' | 'warning' | 'danger'. -/
inductive LogSeverity where
  | info : LogSeverity
  | warning : LogSeverity
  | danger : LogSeverity
  deriving DecidableEq, Repr

/-- `ActivityLog.type` ∈ 'fall' | 'human' | 'system' | 'contact'. -/
inductive LogType where
  | fall : LogType
  | human : LogType
  | system : LogType
  | contact : LogType
  deriving DecidableEq, Repr

/-- The canonical `DetectionResult`.  The TypeScript interface declares
`confidence: number`, but `validateResult` receives an `any`-typed payload
and can pass any truthy runtime value through, so the field is modelled as
a `JsVal`; `isFallDetected` is always `!!`-coerced to a genuine boolean. -/
structure DetectionResult where
  isFallDetected : Bool
  confidence : JsVal
  reasoning : JsVal
  posture : JsVal
  deriving DecidableEq, Repr

/-- A raw provider payload after `JSON.parse`: each expected field may hold
an arbitrary runtime value (or be absent, i.e. `undef`). -/
structure RawPayload where
  isFallDetected : JsVal
  confidence : JsVal
  reasoning : JsVal
  posture : JsVal
  deriving DecidableEq, Repr

/-- `validateResult` (`src/services/aiService.ts`, lines 182–189):
`!!` on `isFallDetected`, and `x || default` on the other three fields
(the JS `||` keeps the left operand whenever it is truthy). -/
def validateResult (r : RawPayload) : DetectionResult :=
  { isFallDetected := r.isFallDetected.truthy
    confidence := if r.confidence.truthy then r.confidence else .num 0
    reasoning := if r.reasoning.truthy then r.reasoning else .str "检测中"
    posture := if r.posture.truthy then r.posture else .str "unknown" }

/-! ## Provider adapter: inference (`analyzeScene` and its variants) -/

/-- The outcome of one transport round-trip as the adapter sees it: either a
parsed JSON payload, or a failure (network error, non-2xx body the adapter
chokes on, or an unparsable body — all of these surface as a thrown
exception at the corresponding `await`/`JSON.parse`). -/
inductive Transport where
  | parsed : RawPayload → Transport
  | failure : Transport
  deriving DecidableEq, Repr

/-- The degraded default returned by the CLOUD branch's `catch`
(`src/services/aiService.ts`, line 155). -/
def cloudFallback : DetectionResult :=
  { isFallDetected := false, confidence := .num 0,
    reasoning := .str "分析引擎连接中...", posture := .str "unknown" }

/-- `analyzeCustom` (lines 159–171): `fetch` → `response.json()` →
`JSON.parse(data.choices[0].message.content)` → `validateResult`.  There is
no `try`/`catch`, so any transport or parse failure propagates to the
caller as a rejection. -/
def analyzeCustom (t : Transport) : Except Unit DetectionResult :=
  match t with
  | .parsed raw => .ok (validateResult raw)
  | .failure => .error ()

/-- `analyzeLocal` (lines 173–180): same shape as `analyzeCustom`, against
the Ollama endpoint; again no `try`/`catch`. -/
def analyzeLocal (t : Transport) : Except Unit DetectionResult :=
  match t with
  | .parsed raw => .ok (validateResult raw)
  | .failure => .error ()

/-- `analyzeScene` (lines 142–157).  LOCAL and CUSTOM are dispatched
*before* the `try` block; only the CLOUD call and its `JSON.parse` are
wrapped, with the `catch` returning `cloudFallback`. -/
def analyzeScene (mode : InferenceMode) (t : Transport) : Except Unit DetectionResult :=
  match mode with
  | .LOCAL => analyzeLocal t
  | .CUSTOM => analyzeCustom t
  | .CLOUD =>
    match t with
    | .parsed raw => .ok (validateResult raw)
    | .failure => .ok cloudFallback

/-! ## Notification dispatcher (`sanitizeForTTS`, `dispatchSpeak`) -/

/-- A character removed by the first `replace` of `sanitizeForTTS`
(character class: braces, double quote, square brackets). -/
def isStructuralChar (c : Char) : Bool :=
  c = '\x7b' ∨ c = '\x7d' ∨ c = '"' ∨ c = '[' ∨ c = ']'

/-- A character removed by the second `replace` (ASCII and fullwidth
colon). -/
def isColonChar (c : Char) : Bool :=
  c = ':' ∨ c = '：'

/-- Replace each maximal run of whitespace by a single ASCII space
(the `\s+` → `" "` replace). -/
def collapseWS : List Char → List Char
  | [] => []
  | [c] => if jsWhitespace c then [' '] else [c]
  | c₁ :: c₂ :: rest =>
    if jsWhitespace c₁ ∧ jsWhitespace c₂ then collapseWS (c₂ :: rest)
    else (if jsWhitespace c₁ then ' ' else c₁) :: collapseWS (c₂ :: rest)

/-- `String.prototype.trim` on a character list. -/
def trimWS (l : List Char) : List Char :=
  (l.dropWhile jsWhitespace).reverse.dropWhile jsWhitespace |>.reverse

/-- `sanitizeForTTS` (`src/services/aiService.ts`, lines 34–37):
`if (!text) return ""`, then blank out bracket/quote characters, blank out
colons, collapse whitespace runs, and trim. -/
def sanitizeForTTS (text : String) : String :=
  if text = "" then ""
  else
    let step1 := text.data.map (fun c => if isStructuralChar c then ' ' else c)
    let step2 := step1.map (fun c => if isColonChar c then ' ' else c)
    String.mk (trimWS (collapseWS step2))

/-- `SystemConfig.voiceType` ∈ 'ai' | 'local' | 'custom_api'
(`local` is a Lean keyword, hence `localVoice`). -/
inductive VoiceType where
  | ai : VoiceType
  | localVoice : VoiceType
  | custom_api : VoiceType
  deriving DecidableEq, Repr

/-- Outcome of the preferred speech engine's network/SDK call (for the
Gemini path a "failure" also covers a response with empty audio data, which
is thrown as an error inside `speakWithGemini`). -/
inductive EngineOutcome where
  | success : EngineOutcome
  | failure : EngineOutcome
  deriving DecidableEq, Repr

/-- Externally visible audio/network operations of the notification
dispatcher, in program order. -/
inductive SpeakAction where
  | providerCall : SpeakAction
  | cancelSynthesis : SpeakAction
  | playGeminiAudio : String → SpeakAction
  | playCustomAudio : String → SpeakAction
  | synthSpeak : String → SpeakAction
  deriving DecidableEq, Repr

/-- `speakLocally` (lines 123–137): `stopSpeaking()` (which is
`window.speechSynthesis.cancel()`) followed by
`window.speechSynthesis.speak(utterance)`. -/
def speakLocally (text : String) : List SpeakAction :=
  [.cancelSynthesis, .synthSpeak text]

/-- `dispatchSpeak` (lines 43–61): sanitize, drop empty messages, route to
the configured engine, and fall back to `speakLocally` on any thrown error.
`ttsConfigOk` models `customTtsUrl`/`customTtsApiKey` both being non-empty
(`speakWithCustomApi` throws before any fetch when they are not). -/
def dispatchSpeak (text : String) (vt : VoiceType) (ttsConfigOk : Bool)
    (engine : EngineOutcome) : List SpeakAction :=
  let cleanText := sanitizeForTTS text
  if cleanText = "" then []
  else
    match vt with
    | .ai =>
      match engine with
      | .success => [.providerCall, .playGeminiAudio cleanText]
      | .failure => .providerCall :: speakLocally cleanText
    | .custom_api =>
      if ttsConfigOk then
        match engine with
        | .success => [.providerCall, .playCustomAudio cleanText]
        | .failure => .providerCall :: speakLocally cleanText
      else speakLocally cleanText
    | .localVoice => speakLocally cleanText

/-! ## Inference dispatcher and escalation state machine (`App`) -/

/-- One `ActivityLog` record, without the random id / wall-clock timestamp
(which the core only ever generates, never reads). -/
structure LogEntry where
  event : String
  type : LogType
  severity : LogSeverity
  deriving DecidableEq, Repr

/-- The mutable React state of `App` that the orchestration core touches. -/
structure AppState where
  status : SystemStatus
  isAnalyzing : Bool
  countdown : ℕ
  logs : List LogEntry
  lastDetection : DetectionResult
  deriving DecidableEq, Repr

/-- Externally visible operations of the `App` handlers, in program order:
state-setter calls, the adapter invocation, notification requests and
`stopSpeaking` calls. -/
inductive AppAction where
  | setBusy : Bool → AppAction
  | inferCall : AppAction
  | setLastDetection : DetectionResult → AppAction
  | addLog : String → LogType → LogSeverity → AppAction
  | setStatus : SystemStatus → AppAction
  | speakRequest : String → AppAction
  | stopSpeakingCall : AppAction
  | setCountdown : ℕ → AppAction
  | setCurrentTTS : String → AppAction
  deriving DecidableEq, Repr

/-- Effect of one setter on the component state (`addLog` prepends and
keeps at most 500 records, as in `App.tsx` line 72; `speakRequest`,
`stopSpeakingCall`, `inferCall` and `setCurrentTTS` do not touch this
state). -/
def applyAction (s : AppState) (a : AppAction) : AppState :=
  match a with
  | .setBusy b => { s with isAnalyzing := b }
  | .inferCall => s
  | .setLastDetection r => { s with lastDetection := r }
  | .addLog msg ty sev => { s with logs := (({ event := msg, type := ty, severity := sev } : LogEntry) :: s.logs).take 500 }
  | .setStatus st => { s with status := st }
  | .speakRequest _ => s
  | .stopSpeakingCall => s
  | .setCountdown n => { s with countdown := n }
  | .setCurrentTTS _ => s

/-- Fold a trace of actions over a pre-state. -/
def applyTrace (s : AppState) (tr : List AppAction) : AppState :=
  tr.foldl applyAction s

/-- Count the notification requests in a trace. -/
def speakCount (tr : List AppAction) : ℕ :=
  tr.countP (fun a => match a with | .speakRequest _ => true | _ => false)

/-- Count the adapter invocations in a trace. -/
def inferCount (tr : List AppAction) : ℕ :=
  tr.countP (fun a => match a with | .inferCall => true | _ => false)

/-- Count the log appends of a given severity in a trace. -/
def logCountSev (sev : LogSeverity) (tr : List AppAction) : ℕ :=
  tr.countP (fun a => match a with | .addLog _ _ s => s = sev | _ => false)

/-- Count all log appends in a trace. -/
def logCount (tr : List AppAction) : ℕ :=
  tr.countP (fun a => match a with | .addLog _ _ _ => true | _ => false)

/-- Count the `setBusy` calls in a trace. -/
def setBusyCount (tr : List AppAction) : ℕ :=
  tr.countP (fun a => match a with | .setBusy _ => true | _ => false)

/-- The critical classification of the dispatcher
(`result.isFallDetected && result.confidence > 0.4`, `App.tsx` line 153),
with JavaScript comparison semantics on the confidence value. -/
def isCritical (r : DetectionResult) : Bool :=
  r.isFallDetected && r.confidence.jsGt (.num (2/5))

/-- The informational classification (`result.confidence > 0.2`,
`App.tsx` line 158). -/
def isInformational (r : DetectionResult) : Bool :=
  r.confidence.jsGt (.num (1/5))

/-- `handleFrameAnalysis` of the v23 revision (`src/App.tsx`,
lines 147–166), as the ordered trace of operations it performs given the
pre-state and the settled outcome of `analyzeScene`.  The `catch` branch
(lines 161–163) only logs to the console; the `finally` always clears the
busy flag. -/
def handleFrameAnalysis (s : AppState) (outcome : Except Unit DetectionResult) :
    List AppAction :=
  if s.status ≠ .MONITORING ∨ s.isAnalyzing then []
  else
    .setBusy true :: .inferCall ::
    (match outcome with
     | .ok r =>
       .setLastDetection r ::
       (if isCritical r then
          [.addLog ("[紧急] 检测到跌倒风险! " ++ r.reasoning.render) .fall .danger,
           .setStatus .ALERT,
           .speakRequest "警报！监测到意外。请问您需要帮助吗？",
           .setCountdown 10]
        else if isInformational r then
          [.addLog ("动态更新：" ++ r.reasoning.render) .human .info]
        else [])
     | .error _ => []) ++
    [.setBusy false]

/-- `handleFrameAnalysis` of the v18 revision (`src/unnamed/part_003`,
lines 133–154).  Same classification thresholds; the critical branch also
records the message in `currentTTS` and the `catch` appends one
warning-severity log entry. -/
def handleFrameAnalysisV18 (s : AppState) (outcome : Except Unit DetectionResult) :
    List AppAction :=
  if s.status ≠ .MONITORING ∨ s.isAnalyzing then []
  else
    .setBusy true :: .inferCall ::
    (match outcome with
     | .ok r =>
       .setLastDetection r ::
       (if isCritical r then
          [.addLog ("[严重] 检测到跌倒! " ++ r.reasoning.render) .fall .danger,
           .setStatus .ALERT,
           .setCurrentTTS "警报！检测到风险。请问您需要帮助吗？我们将于十秒内呼叫救援人员。",
           .setCountdown 10,
           .speakRequest "警报！检测到风险。请问您需要帮助吗？我们将于十秒内呼叫救援人员。"]
        else if isInformational r then
          [.addLog ("分析：" ++ r.reasoning.render) .human .info]
        else [])
     | .error _ => [.addLog "传感器链路波动" .system .warning]) ++
    [.setBusy false]

/-- One evaluation step of the countdown machinery of the v23 revision
(`src/App.tsx`, lines 168–178).  While `status = ALERT ∧ countdown > 0` the
installed interval fires one decrement per second; when
`status = ALERT ∧ countdown = 0` the effect body transitions to EMERGENCY,
requests the confirmation message and appends the danger log entry; in any
other state the effect does nothing (the cleanup has cleared the
interval). -/
def countdownStep (s : AppState) : List AppAction :=
  if s.status = .ALERT ∧ s.countdown > 0 then
    [.setCountdown (s.countdown - 1)]
  else if s.status = .ALERT ∧ s.countdown = 0 then
    [.setStatus .EMERGENCY,
     .speakRequest "确认险情。正在呼叫紧急联系人，请保持冷静。",
     .addLog "执行紧急救援程序" .contact .danger]
  else []

/-- Run `n` successive countdown evaluation steps, threading the state and
concatenating the emitted actions. -/
def runCountdown : ℕ → AppState → AppState × List AppAction
  | 0, s => (s, [])
  | n + 1, s =>
    ((runCountdown n (applyTrace s (countdownStep s))).1,
      countdownStep s ++ (runCountdown n (applyTrace s (countdownStep s))).2)

/-- The confirm-emergency button of the v23 alert overlay (`src/App.tsx`,
lines 463–466): `stopSpeaking(); setStatus(SystemStatus.EMERGENCY);` and
nothing else. -/
def confirmEmergencyButton : List AppAction :=
  [.stopSpeakingCall, .setStatus .EMERGENCY]

/-- The false-alarm button of the v23 alert overlay (`src/App.tsx`,
line 464). -/
def cancelAlertButton : List AppAction :=
  [.stopSpeakingCall, .setStatus .MONITORING,
   .addLog "人工干预：标记为误报" .human .info]

/-- `handleImmediateRescue` of the v7 revision (`src/App.tsx`,
lines 613–620): stop the current speech, transition to EMERGENCY, record
and speak the confirmation message, and append the danger log entry. -/
def handleImmediateRescue : List AppAction :=
  [.stopSpeakingCall, .setStatus .EMERGENCY,
   .setCurrentTTS "已确认险情，紧急救援程序已启动。正在拨打急救电话。",
   .speakRequest "已确认险情，紧急救援程序已启动。正在拨打急救电话。",
   .addLog "用户手动触发救援程序" .contact .danger]

/-- One firing of the sampling interval in `VideoDisplay`
(`src/components/VideoDisplay.tsx`, lines 37–52): the interval only exists
while `isMonitoring`; each tick captures and forwards one frame unless the
dispatcher reports itself busy, in which case the frame is dropped (nothing
is buffered).  `refsReady` models the video/canvas refs being attached. -/
def videoSamplingTick (isMonitoring refsReady isAnalyzing : Bool) : ℕ :=
  if isMonitoring then
    (if refsReady ∧ ¬isAnalyzing then 1 else 0)
  else 0

/-! ## Concrete fixtures used by witnesses and counterexamples -/

/-- An armed, idle dispatcher state. -/
def readyState : AppState :=
  { status := .MONITORING, isAnalyzing := false, countdown := 10, logs := [],
    lastDetection := cloudFallback }

/-- An armed state with an inference call outstanding. -/
def busyState : AppState :=
  { readyState with isAnalyzing := true }

/-- The ALERT state at the moment the countdown reaches zero. -/
def alertZeroState : AppState :=
  { readyState with status := .ALERT, countdown := 0 }

/-- A confident fall detection (`fallDetected = true`, confidence 0.5). -/
def fallDetection : DetectionResult :=
  { isFallDetected := true, confidence := .num (1/2),
    reasoning := .str "人员倒地", posture := .str "lying" }

/-- A low-confidence detection (confidence 0.1). -/
def lowConfidenceDetection : DetectionResult :=
  { isFallDetected := false, confidence := .num (1/10),
    reasoning := .str "无人", posture := .str "none" }

/-! ## Theorems -/

/-- C1: a `DetectionResult` with `fallDetected = true` and
`confidence > 0.4` (in particular `0.5`) processed while the system is
MONITORING and the dispatcher is not busy makes the dispatcher emit exactly
one danger-severity log entry, transition the state machine to ALERT,
initialize the countdown to 10, and dispatch exactly one notification
request (the inquiry message). -/
theorem C1_critical_frame_escalates (s : AppState) (r : DetectionResult)
    (hmon : s.status = .MONITORING) (hbusy : s.isAnalyzing = false)
    (hfall : r.isFallDetected = true)
    (hconf : r.confidence.jsGt (.num (2/5)) = true) :
    logCountSev .danger (handleFrameAnalysis s (.ok r)) = 1 ∧
    (applyTrace s (handleFrameAnalysis s (.ok r))).status = .ALERT ∧
    (applyTrace s (handleFrameAnalysis s (.ok r))).countdown = 10 ∧
    speakCount (handleFrameAnalysis s (.ok r)) = 1 := by
  have hcrit : isCritical r = true := by simp [isCritical, hfall, hconf]
  simp [handleFrameAnalysis, hmon, hbusy, hcrit, applyTrace, applyAction,
    logCountSev, speakCount, List.countP_cons, List.countP_nil]

/-- Witness for C1 at the concrete state `readyState` and the concrete
detection `fallDetection` (confidence exactly 0.5). -/
theorem C1_witness :
    (readyState.status = .MONITORING ∧ readyState.isAnalyzing = false ∧
      fallDetection.isFallDetected = true ∧
      fallDetection.confidence.jsGt (.num (2/5)) = true) ∧
    (logCountSev .danger (handleFrameAnalysis readyState (.ok fallDetection)) = 1 ∧
      (applyTrace readyState (handleFrameAnalysis readyState (.ok fallDetection))).status = .ALERT ∧
      (applyTrace readyState (handleFrameAnalysis readyState (.ok fallDetection))).countdown = 10 ∧
      speakCount (handleFrameAnalysis readyState (.ok fallDetection)) = 1) :=
  ⟨⟨rfl, rfl, rfl, by norm_num [fallDetection, JsVal.jsGt, JsVal.toNum]⟩,
    C1_critical_frame_escalates readyState fallDetection
      rfl rfl rfl (by norm_num [fallDetection, JsVal.jsGt, JsVal.toNum])⟩

/-- C8: a `DetectionResult` whose confidence is a number `≤ 0.2` produces
no log entry and no state transition (neither the critical nor the
informational branch fires), for any pre-state. -/
theorem C8_low_confidence_silent (s : AppState) (r : DetectionResult)
    (q : ℚ) (hq : r.confidence = .num q) (hle : q ≤ 1/5) :
    logCount (handleFrameAnalysis s (.ok r)) = 0 ∧
    (applyTrace s (handleFrameAnalysis s (.ok r))).status = s.status ∧
    (applyTrace s (handleFrameAnalysis s (.ok r))).countdown = s.countdown := by
  have hinfo : isInformational r = false := by
    simp [isInformational, hq, JsVal.jsGt, JsVal.toNum]
    linarith
  have hcrit : isCritical r = false := by
    simp [isCritical, hq, JsVal.jsGt, JsVal.toNum]
    intro _
    linarith
  by_cases hrun : s.status ≠ SystemStatus.MONITORING ∨ s.isAnalyzing
  · simp [handleFrameAnalysis, hrun, logCount, applyTrace]
  · simp [handleFrameAnalysis, hrun, hcrit, hinfo, logCount, applyTrace,
      applyAction, List.countP_cons, List.countP_nil]

/-- Witness for C8 at `readyState` with confidence 0.1. -/
theorem C8_witness :
    (lowConfidenceDetection.confidence = .num (1/10) ∧ (1/10 : ℚ) ≤ 1/5) ∧
    (logCount (handleFrameAnalysis readyState (.ok lowConfidenceDetection)) = 0 ∧
      (applyTrace readyState (handleFrameAnalysis readyState (.ok lowConfidenceDetection))).status = readyState.status ∧
      (applyTrace readyState (handleFrameAnalysis readyState (.ok lowConfidenceDetection))).countdown = readyState.countdown) :=
  ⟨⟨rfl, by norm_num⟩,
    C8_low_confidence_silent readyState lowConfidenceDetection (1/10)
      rfl (by norm_num)⟩

/-- A state that is not in ALERT never produces countdown actions, and
iterating the countdown machinery from it changes nothing. -/
theorem runCountdown_inert (n : ℕ) (s : AppState) (h : s.status ≠ .ALERT) :
    runCountdown n s = (s, []) := by
  induction n with
  | zero => rfl
  | succ m ih =>
    have hstep : countdownStep s = [] := by
      simp [countdownStep, h]
    simp [runCountdown, hstep, applyTrace, ih]

/-- C5: when the countdown reaches 0 while the state is ALERT with no human
command, the EMERGENCY transition fires exactly once: over any number of
further evaluation steps, exactly one notification request and exactly one
danger log entry are emitted in total, and the state stays EMERGENCY. -/
theorem C5_emergency_fires_once (s : AppState) (k : ℕ)
    (halert : s.status = .ALERT) (hzero : s.countdown = 0) :
    speakCount (runCountdown (k + 1) s).2 = 1 ∧
    logCountSev .danger (runCountdown (k + 1) s).2 = 1 ∧
    (runCountdown (k + 1) s).1.status = .EMERGENCY := by
  have hstep : countdownStep s =
      [.setStatus .EMERGENCY,
       .speakRequest "确认险情。正在呼叫紧急联系人，请保持冷静。",
       .addLog "执行紧急救援程序" .contact .danger] := by
    simp [countdownStep, halert, hzero]
  have hfired : (applyTrace s (countdownStep s)).status = .EMERGENCY := by
    rw [hstep]; simp [applyTrace, applyAction]
  have hrest : runCountdown k (applyTrace s (countdownStep s)) =
      (applyTrace s (countdownStep s), []) := by
    apply runCountdown_inert
    rw [hfired]; decide
  have htr : (runCountdown (k + 1) s).2 =
      countdownStep s ++ (runCountdown k (applyTrace s (countdownStep s))).2 := rfl
  have hst : (runCountdown (k + 1) s).1 =
      (runCountdown k (applyTrace s (countdownStep s))).1 := rfl
  refine ⟨?_, ?_, ?_⟩
  · rw [speakCount, htr, hrest, hstep]
    simp [List.countP_append, List.countP_cons, List.countP_nil]
  · rw [logCountSev, htr, hrest, hstep]
    simp [List.countP_append, List.countP_cons, List.countP_nil]
  · rw [hst, hrest]; exact hfired

/-- Witness for C5 at `alertZeroState` with three further steps. -/
theorem C5_witness :
    (alertZeroState.status = .ALERT ∧ alertZeroState.countdown = 0) ∧
    (speakCount (runCountdown 4 alertZeroState).2 = 1 ∧
      logCountSev .danger (runCountdown 4 alertZeroState).2 = 1 ∧
      (runCountdown 4 alertZeroState).1.status = .EMERGENCY) :=
  ⟨⟨rfl, rfl⟩, C5_emergency_fires_once alertZeroState 3 rfl rfl⟩

/-- The ALERT state with the countdown still running (as when the alert
overlay is shown). -/
def alertState : AppState :=
  { readyState with status := .ALERT, countdown := 7 }

/-- C4 counterexample: the v23 confirm-emergency button
(`src/App.tsx`, lines 463–466) dispatches no notification and appends no
log entry at all, while the countdown-expiry path emits one of each — so
the button does *not* have the same side effects as countdown expiry. -/
theorem C4_counterexample :
    speakCount confirmEmergencyButton = 0 ∧
    logCount confirmEmergencyButton = 0 ∧
    speakCount (countdownStep alertZeroState) = 1 ∧
    logCountSev .danger (countdownStep alertZeroState) = 1 := by
  refine ⟨rfl, rfl, ?_, ?_⟩ <;>
    simp [countdownStep, alertZeroState, readyState, speakCount, logCountSev,
      List.countP_cons, List.countP_nil]

/-- C4 (amended): in the v23 revision the confirm-emergency button issued
while state = ALERT stops the playing notification and transitions to
EMERGENCY, after which the countdown machinery is inert (the countdown is
cancelled), but — unlike countdown expiry — it issues no new notification
and no log entry; the v7 revision's `handleImmediateRescue` additionally
issues exactly one confirmation notification and one danger log entry. -/
theorem C4_confirm_emergency_effects (s : AppState) (_halert : s.status = .ALERT) :
    (applyTrace s confirmEmergencyButton).status = .EMERGENCY ∧
    confirmEmergencyButton.head? = some .stopSpeakingCall ∧
    speakCount confirmEmergencyButton = 0 ∧
    logCount confirmEmergencyButton = 0 ∧
    countdownStep (applyTrace s confirmEmergencyButton) = [] ∧
    (applyTrace s handleImmediateRescue).status = .EMERGENCY ∧
    handleImmediateRescue.head? = some .stopSpeakingCall ∧
    speakCount handleImmediateRescue = 1 ∧
    logCountSev .danger handleImmediateRescue = 1 ∧
    countdownStep (applyTrace s handleImmediateRescue) = [] := by
  refine ⟨rfl, rfl, rfl, rfl, ?_, rfl, rfl, rfl, rfl, ?_⟩ <;>
    simp [confirmEmergencyButton, handleImmediateRescue, applyTrace,
      applyAction, countdownStep]

/-- Witness for C4's amended statement at the concrete state `alertState`. -/
theorem C4_witness :
    alertState.status = .ALERT ∧
    ((applyTrace alertState confirmEmergencyButton).status = .EMERGENCY ∧
      speakCount confirmEmergencyButton = 0 ∧
      countdownStep (applyTrace alertState confirmEmergencyButton) = []) :=
  ⟨rfl,
    (C4_confirm_emergency_effects alertState rfl).1,
    (C4_confirm_emergency_effects alertState rfl).2.2.1,
    (C4_confirm_emergency_effects alertState rfl).2.2.2.2.1⟩

/-- C6 counterexample: in the v23 revision, an adapter failure handled by
`handleFrameAnalysis` (`src/App.tsx`, lines 161–165) produces *no* log
entry at all (the `catch` only writes to the console), contradicting the
claimed single warning-severity entry. -/
theorem C6_counterexample :
    logCount (handleFrameAnalysis readyState (.error ())) = 0 ∧
    logCountSev .warning (handleFrameAnalysis readyState (.error ())) = 0 := by
  refine ⟨?_, ?_⟩ <;>
    simp [handleFrameAnalysis, readyState, logCount, logCountSev,
      List.countP_cons, List.countP_nil]

/-- C6 (amended): an adapter exception is always caught by the dispatcher,
leaves the system state, countdown and log list unchanged, and clears the
busy flag (the failure never propagates); the v23 revision emits no log
entry for it, while the v18 revision (`src/unnamed/part_003`, lines
149–153) emits exactly one warning-severity "传感器链路波动"
(sensor link fluctuation) entry and likewise leaves the state unchanged. -/
theorem C6_failure_absorbed (s : AppState)
    (hmon : s.status = .MONITORING) (hbusy : s.isAnalyzing = false) :
    handleFrameAnalysis s (.error ()) =
      [.setBusy true, .inferCall, .setBusy false] ∧
    (applyTrace s (handleFrameAnalysis s (.error ()))).status = s.status ∧
    (applyTrace s (handleFrameAnalysis s (.error ()))).countdown = s.countdown ∧
    (applyTrace s (handleFrameAnalysis s (.error ()))).logs = s.logs ∧
    (applyTrace s (handleFrameAnalysis s (.error ()))).isAnalyzing = false ∧
    logCount (handleFrameAnalysis s (.error ())) = 0 ∧
    handleFrameAnalysisV18 s (.error ()) =
      [.setBusy true, .inferCall,
        .addLog "传感器链路波动" .system .warning, .setBusy false] ∧
    logCountSev .warning (handleFrameAnalysisV18 s (.error ())) = 1 ∧
    (applyTrace s (handleFrameAnalysisV18 s (.error ()))).status = s.status ∧
    (applyTrace s (handleFrameAnalysisV18 s (.error ()))).countdown = s.countdown := by
  have h23 : handleFrameAnalysis s (.error ()) =
      [.setBusy true, .inferCall, .setBusy false] := by
    simp [handleFrameAnalysis, hmon, hbusy]
  have h18 : handleFrameAnalysisV18 s (.error ()) =
      [.setBusy true, .inferCall,
        .addLog "传感器链路波动" .system .warning, .setBusy false] := by
    simp [handleFrameAnalysisV18, hmon, hbusy]
  rw [h23, h18]
  refine ⟨rfl, ?_, ?_, ?_, ?_, ?_, rfl, ?_, ?_, ?_⟩ <;>
    simp [applyTrace, applyAction, logCount, logCountSev,
      List.countP_cons, List.countP_nil]

/-- Witness for C6's amended statement at `readyState`. -/
theorem C6_witness :
    (readyState.status = .MONITORING ∧ readyState.isAnalyzing = false) ∧
    (handleFrameAnalysis readyState (.error ()) =
        [.setBusy true, .inferCall, .setBusy false] ∧
      logCountSev .warning (handleFrameAnalysisV18 readyState (.error ())) = 1) :=
  ⟨⟨rfl, rfl⟩,
    (C6_failure_absorbed readyState rfl rfl).1,
    (C6_failure_absorbed readyState rfl rfl).2.2.2.2.2.2.2.1⟩

/-- C3 counterexample: for the user-configured custom endpoint and the
self-hosted local variants, a transport failure makes `infer` *raise* to
its caller instead of returning a zero-confidence `DetectionResult` — only
the cloud variant absorbs failures. -/
theorem C3_counterexample :
    analyzeScene .CUSTOM .failure = .error () ∧
    analyzeScene .LOCAL .failure = .error () :=
  ⟨rfl, rfl⟩

/-- C3 (amended): the cloud-hosted variant of `infer` never raises — on
transport failure or an unparsable body it returns the zero-confidence
fallback with `posture = "unknown"` and a diagnostic reasoning string —
whereas the self-hosted local and custom-endpoint variants propagate any
transport/parse failure to the caller (where the dispatcher's `catch`
absorbs it), returning a validated result only on success. -/
theorem C3_adapter_failure_scope (t : Transport) :
    (∃ r, analyzeScene .CLOUD t = .ok r) ∧
    analyzeScene .CLOUD .failure = .ok cloudFallback ∧
    cloudFallback.confidence = .num 0 ∧
    cloudFallback.posture = .str "unknown" ∧
    cloudFallback.reasoning = .str "分析引擎连接中..." ∧
    (∀ raw, analyzeScene .CUSTOM (.parsed raw) = .ok (validateResult raw) ∧
      analyzeScene .LOCAL (.parsed raw) = .ok (validateResult raw)) ∧
    analyzeScene .CUSTOM .failure = .error () ∧
    analyzeScene .LOCAL .failure = .error () := by
  refine ⟨?_, rfl, rfl, rfl, rfl, fun raw => ⟨rfl, rfl⟩, rfl, rfl⟩
  cases t with
  | parsed raw => exact ⟨validateResult raw, rfl⟩
  | failure => exact ⟨cloudFallback, rfl⟩

/-- A payload with a numeric out-of-range confidence. -/
def payload5 : RawPayload :=
  { isFallDetected := .boolean true, confidence := .num 5,
    reasoning := .str "测试", posture := .str "lying" }

/-- A payload whose confidence is a truthy but non-numeric value. -/
def weirdPayload : RawPayload :=
  { isFallDetected := .boolean true, confidence := .str "high",
    reasoning := .str "异常", posture := .str "lying" }

/-- C10 counterexample: a truthy non-numeric confidence (the string
`"high"`) does flow through `validateResult` unmodified, but it does *not*
satisfy the critical classification — the JavaScript comparison
`"high" > 0.4` coerces the string to NaN and yields `false`, so no danger
log entry is emitted and no transition fires. -/
theorem C10_counterexample :
    (validateResult weirdPayload).confidence = .str "high" ∧
    (validateResult weirdPayload).isFallDetected = true ∧
    isCritical (validateResult weirdPayload) = false ∧
    logCountSev .danger
      (handleFrameAnalysis readyState (.ok (validateResult weirdPayload))) = 0 := by
  have hnone : strToNum "high" = none := by decide
  have hcrit : isCritical (validateResult weirdPayload) = false := by
    simp [isCritical, validateResult, weirdPayload, JsVal.truthy,
      JsVal.jsGt, JsVal.toNum, hnone]
  have hinfo : isInformational (validateResult weirdPayload) = false := by
    simp [isInformational, validateResult, weirdPayload, JsVal.truthy,
      JsVal.jsGt, JsVal.toNum, hnone]
  refine ⟨rfl, rfl, hcrit, ?_⟩
  simp [handleFrameAnalysis, readyState, hcrit, hinfo, logCountSev,
    List.countP_cons, List.countP_nil]

/-- C10 (amended): `validateResult` does not clamp confidence — every
truthy raw confidence is returned unchanged and every falsy one becomes
`0`; a numeric confidence above the 0.4 threshold (e.g. `5`, out of range)
combined with a truthy `isFallDetected` satisfies the critical
classification, while a truthy value that coerces to NaN never does. -/
theorem C10_no_clamping (raw : RawPayload) :
    (raw.confidence.truthy = true → (validateResult raw).confidence = raw.confidence) ∧
    (raw.confidence.truthy = false → (validateResult raw).confidence = .num 0) ∧
    (∀ q : ℚ, raw.confidence = .num q → q > 2/5 → raw.isFallDetected.truthy = true →
      isCritical (validateResult raw) = true) ∧
    (raw.confidence.toNum = none → isCritical (validateResult raw) = false) := by
  refine ⟨?_, ?_, ?_, ?_⟩
  · intro h; simp [validateResult, h]
  · intro h; simp [validateResult, h]
  · intro q hq hgt hfall
    have h0 : (0 : ℚ) < q := lt_trans (by norm_num) hgt
    have htr : JsVal.truthy (.num q) = true := by
      simp [JsVal.truthy]
      exact ne_of_gt h0
    have hcmp : (JsVal.num q).jsGt (.num (2/5)) = true := by
      simp [JsVal.jsGt, JsVal.toNum]
      exact hgt
    simp [isCritical, validateResult, hq, htr, hfall, hcmp]
  · intro h
    by_cases htr : raw.confidence.truthy = true
    · simp [isCritical, validateResult, htr, JsVal.jsGt, h]
    · have htr' : raw.confidence.truthy = false := by
        cases hv : raw.confidence.truthy
        · rfl
        · exact absurd hv htr
      simp [isCritical, validateResult, htr', JsVal.jsGt, JsVal.toNum]
      norm_num

/-- Witness for C10's amended statement at the concrete payload
`payload5` (confidence 5). -/
theorem C10_witness :
    (payload5.confidence.truthy = true ∧ payload5.confidence = .num 5 ∧
      (5 : ℚ) > 2/5 ∧ payload5.isFallDetected.truthy = true) ∧
    ((validateResult payload5).confidence = payload5.confidence ∧
      isCritical (validateResult payload5) = true) :=
  ⟨⟨by norm_num [payload5, JsVal.truthy], rfl, by norm_num, rfl⟩,
    (C10_no_clamping payload5).1 (by norm_num [payload5, JsVal.truthy]),
    (C10_no_clamping payload5).2.2.1 5 rfl (by norm_num) rfl⟩

/-- C2: the dispatcher is single-flight.  A frame arriving while the busy
flag is set, or while the state is not MONITORING, is dropped without any
effect (never queued); otherwise the trace sets the busy flag immediately
before the unique adapter invocation and unconditionally ends by clearing
it (for every outcome, success, classified failure or exception), so the
busy flag is never left set; and the sampling interval emits no frame at
all while the dispatcher reports itself busy. -/
theorem C2_single_flight (s : AppState) (o : Except Unit DetectionResult) :
    (s.isAnalyzing = true ∨ s.status ≠ .MONITORING → handleFrameAnalysis s o = []) ∧
    inferCount (handleFrameAnalysis s o) ≤ 1 ∧
    (s.isAnalyzing = false → s.status = .MONITORING →
      ∃ body, handleFrameAnalysis s o =
          .setBusy true :: .inferCall :: (body ++ [.setBusy false]) ∧
        inferCount body = 0 ∧ setBusyCount body = 0) ∧
    (applyTrace s (handleFrameAnalysis s o)).isAnalyzing = s.isAnalyzing ∧
    (∀ m r : Bool, videoSamplingTick m r true = 0) := by
  by_cases hdrop : s.status ≠ SystemStatus.MONITORING ∨ s.isAnalyzing = true
  · have hnil : handleFrameAnalysis s o = [] := by
      rcases hdrop with h | h
      · simp [handleFrameAnalysis, h]
      · simp [handleFrameAnalysis, h]
    refine ⟨fun _ => hnil, ?_, ?_, ?_, ?_⟩
    · simp [hnil, inferCount]
    · intro hb hm
      rcases hdrop with h | h
      · exact absurd hm h
      · rw [hb] at h; cases h
    · rw [hnil]; rfl
    · intro m r; simp [videoSamplingTick]
  · rw [not_or] at hdrop
    obtain ⟨hm0, hb0⟩ := hdrop
    have hm : s.status = SystemStatus.MONITORING := not_not.mp hm0
    have hb : s.isAnalyzing = false := by
      cases hba : s.isAnalyzing
      · rfl
      · exact absurd hba hb0
    have key : ∃ body, handleFrameAnalysis s o =
        .setBusy true :: .inferCall :: (body ++ [.setBusy false]) ∧
        inferCount body = 0 ∧ setBusyCount body = 0 := by
      cases o with
      | error e =>
        refine ⟨[], ?_, rfl, rfl⟩
        simp [handleFrameAnalysis, hm, hb]
      | ok r =>
        by_cases hc : isCritical r = true
        · refine ⟨[.setLastDetection r,
            .addLog ("[紧急] 检测到跌倒风险! " ++ r.reasoning.render) .fall .danger,
            .setStatus .ALERT,
            .speakRequest "警报！监测到意外。请问您需要帮助吗？",
            .setCountdown 10], ?_, rfl, rfl⟩
          simp [handleFrameAnalysis, hm, hb, hc]
        · by_cases hi : isInformational r = true
          · refine ⟨[.setLastDetection r,
              .addLog ("动态更新：" ++ r.reasoning.render) .human .info], ?_, rfl, rfl⟩
            simp [handleFrameAnalysis, hm, hb, hc, hi]
          · refine ⟨[.setLastDetection r], ?_, rfl, rfl⟩
            simp [handleFrameAnalysis, hm, hb, hc, hi]
    obtain ⟨body, htrace, hbody1, hbody2⟩ := key
    have hcount : inferCount (handleFrameAnalysis s o) = 1 := by
      rw [htrace]
      rw [inferCount] at hbody1 ⊢
      simp [List.countP_cons, List.countP_append, List.countP_nil, hbody1]
    refine ⟨?_, ?_, fun _ _ => ⟨body, htrace, hbody1, hbody2⟩, ?_, ?_⟩
    · intro hcon
      rcases hcon with h | h
      · rw [hb] at h; cases h
      · exact absurd hm h
    · rw [hcount]
    · rw [htrace, hb]
      show (applyTrace s (.setBusy true :: .inferCall :: (body ++ [.setBusy false]))).isAnalyzing = false
      rw [applyTrace, List.foldl_cons, List.foldl_cons, List.foldl_append]
      simp [applyAction]
    · intro m r; simp [videoSamplingTick]

/-- Witness for C2: a frame arriving at the busy state is dropped entirely,
and the ready state issues at most one adapter call. -/
theorem C2_witness :
    (busyState.isAnalyzing = true ∨ busyState.status ≠ .MONITORING) ∧
    handleFrameAnalysis busyState (.ok fallDetection) = [] ∧
    inferCount (handleFrameAnalysis readyState (.error ())) ≤ 1 :=
  ⟨Or.inl rfl,
    (C2_single_flight busyState (.ok fallDetection)).1 (Or.inl rfl),
    (C2_single_flight readyState (.error ())).2.1⟩

/-- C7 counterexample: a notification dispatched through the managed AI
voice engine plays the new audio without any cancellation of a previous
request (and the custom speech endpoint path behaves the same), so "cancel
the previous request first" does not hold for each of the three
voice-engine kinds. -/
theorem C7_counterexample :
    dispatchSpeak "紧急警报" .ai true .success =
      [.providerCall, .playGeminiAudio "紧急警报"] ∧
    SpeakAction.cancelSynthesis ∉ dispatchSpeak "紧急警报" .ai true .success ∧
    SpeakAction.cancelSynthesis ∉ dispatchSpeak "紧急警报" .custom_api true .success := by
  refine ⟨?_, ?_, ?_⟩ <;> decide

/-- C7 (amended): only the on-device synthesis path cancels a previous
spoken message before starting — it is taken directly when the voice type
is `local`, and as the fallback after a managed-AI-voice or custom-endpoint
failure (including missing custom configuration); the managed AI voice and
the custom speech endpoint start their playback on success without
cancelling anything, so "latest wins" is only enforced for on-device
synthesis. -/
theorem C7_cancellation_scope (text : String) (h : sanitizeForTTS text ≠ "") :
    (∀ (cfg : Bool) (e : EngineOutcome),
      dispatchSpeak text .localVoice cfg e =
        [.cancelSynthesis, .synthSpeak (sanitizeForTTS text)]) ∧
    (∀ cfg : Bool, dispatchSpeak text .ai cfg .failure =
      [.providerCall, .cancelSynthesis, .synthSpeak (sanitizeForTTS text)]) ∧
    dispatchSpeak text .custom_api true .failure =
      [.providerCall, .cancelSynthesis, .synthSpeak (sanitizeForTTS text)] ∧
    (∀ e : EngineOutcome, dispatchSpeak text .custom_api false e =
      [.cancelSynthesis, .synthSpeak (sanitizeForTTS text)]) ∧
    (∀ cfg : Bool,
      SpeakAction.cancelSynthesis ∉ dispatchSpeak text .ai cfg .success) ∧
    SpeakAction.cancelSynthesis ∉ dispatchSpeak text .custom_api true .success := by
  refine ⟨?_, ?_, ?_, ?_, ?_, ?_⟩ <;>
    simp [dispatchSpeak, speakLocally, h]

/-- Witness for C7's amended statement at the concrete message "救命啊". -/
theorem C7_witness :
    sanitizeForTTS "救命啊" ≠ "" ∧
    dispatchSpeak "救命啊" .localVoice true .success =
      [.cancelSynthesis, .synthSpeak (sanitizeForTTS "救命啊")] ∧
    SpeakAction.cancelSynthesis ∉ dispatchSpeak "救命啊" .ai true .success :=
  ⟨by decide,
    (C7_cancellation_scope "救命啊" (by decide)).1 true .success,
    (C7_cancellation_scope "救命啊" (by decide)).2.2.2.2.1 true⟩

/-! ## Sanitization round-trip (C9) -/

/-- A character that none of the sanitizer's character classes match. -/
def allowedChar (c : Char) : Bool :=
  !(isStructuralChar c || isColonChar c)

/-- No two adjacent whitespace characters. -/
def noAdjacentWS : List Char → Bool
  | a :: b :: rest => (!(jsWhitespace a && jsWhitespace b)) && noAdjacentWS (b :: rest)
  | _ => true

/-- Whitespace already in normal form: every `jsWhitespace` character
(the JS `\s` class) is a plain ASCII space, no two are adjacent, and none
sits at either end — exactly the texts on which the `\s+`-collapse and the
trim are the identity. -/
def tidySpacing (l : List Char) : Bool :=
  l.all (fun c => !jsWhitespace c || c = ' ') && noAdjacentWS l &&
    (match l.head? with | some c => !jsWhitespace c | none => true) &&
    (match l.getLast? with | some c => !jsWhitespace c | none => true)

/-- Collapsing whitespace runs is the identity on lists whose whitespace is
already normalized. -/
theorem collapseWS_eq_self (l : List Char)
    (hsp : ∀ c ∈ l, jsWhitespace c = true → c = ' ')
    (hadj : noAdjacentWS l = true) : collapseWS l = l := by
  induction l with
  | nil => rfl
  | cons a rest ih =>
    cases rest with
    | nil =>
      cases hwb : jsWhitespace a with
      | true =>
        have ha := hsp a (by simp) hwb
        simp [collapseWS, hwb, ha]
      | false => simp [collapseWS, hwb]
    | cons b rest2 =>
      rw [noAdjacentWS, Bool.and_eq_true] at hadj
      obtain ⟨h1, h2⟩ := hadj
      have hcond : ¬(jsWhitespace a = true ∧ jsWhitespace b = true) := by
        rw [← Bool.and_eq_true]
        intro hcon
        rw [hcon] at h1
        cases h1
      have hih := ih (fun c hc hw => hsp c (List.mem_cons_of_mem a hc) hw) h2
      simp only [collapseWS]
      rw [if_neg hcond, hih]
      cases hwb : jsWhitespace a with
      | true =>
        have ha := hsp a (by simp) hwb
        simp [hwb, ha]
      | false => simp [hwb]

/-- Collapsing a non-empty all-space list yields a single space. -/
theorem collapseWS_all_space (l : List Char) (hne : l ≠ [])
    (hall : ∀ c ∈ l, c = ' ') : collapseWS l = [' '] := by
  induction l with
  | nil => cases hne rfl
  | cons a rest ih =>
    cases rest with
    | nil =>
      have ha := hall a (by simp)
      subst ha
      rfl
    | cons b rest2 =>
      have ha := hall a (by simp)
      have hb := hall b (by simp)
      have hih := ih (by simp) (fun c hc => hall c (List.mem_cons_of_mem a hc))
      simp only [collapseWS]
      rw [if_pos ?hws]
      case hws =>
        subst ha; subst hb
        exact ⟨by decide, by decide⟩
      exact hih

/-- `dropWhile jsWhitespace` is the identity when the head is not
whitespace. -/
theorem dropWhileWS_eq_self (l : List Char)
    (h : ∀ c, l.head? = some c → jsWhitespace c = false) :
    l.dropWhile jsWhitespace = l := by
  cases l with
  | nil => rfl
  | cons a rest =>
    have ha := h a rfl
    simp [List.dropWhile_cons, ha]

/-- Trimming is the identity when neither end is whitespace. -/
theorem trimWS_eq_self (l : List Char)
    (h1 : ∀ c, l.head? = some c → jsWhitespace c = false)
    (h2 : ∀ c, l.getLast? = some c → jsWhitespace c = false) :
    trimWS l = l := by
  show ((l.dropWhile jsWhitespace).reverse.dropWhile jsWhitespace).reverse = l
  rw [dropWhileWS_eq_self l h1]
  rw [dropWhileWS_eq_self l.reverse
    (fun c hc => h2 c (by rwa [List.head?_reverse] at hc))]
  exact List.reverse_reverse l

/-- C9 (amended): sanitizing returns the identical text for every message
that contains no disallowed character *and* whose whitespace — in the sense
of the JS `\s` class, which also contains U+00A0 and the ideographic space
U+3000 — is already normalized (all plain spaces, single, interior); the
whitespace-collapsing and trimming steps make the plain "no disallowed
characters implies identity" reading false; a non-empty message composed
entirely of disallowed characters sanitizes to the empty string; and
dispatching any message whose sanitized form is empty performs no operation
at all (in particular zero provider calls). -/
theorem C9_sanitize_roundtrip :
    (∀ s : String, s.data.all allowedChar = true → tidySpacing s.data = true →
      sanitizeForTTS s = s) ∧
    (∀ s : String, s ≠ "" →
      s.data.all (fun c => isStructuralChar c || isColonChar c) = true →
      sanitizeForTTS s = "") ∧
    (∀ (s : String) (vt : VoiceType) (cfg : Bool) (e : EngineOutcome),
      sanitizeForTTS s = "" → dispatchSpeak s vt cfg e = []) := by
  refine ⟨?_, ?_, ?_⟩
  · intro s hall htidy
    obtain ⟨l⟩ := s
    by_cases hempty : String.mk l = ""
    · rw [hempty]; rfl
    · simp only [tidySpacing, Bool.and_eq_true] at htidy
      obtain ⟨⟨⟨hsp0, hadj⟩, hhead⟩, hlast⟩ := htidy
      have hsp : ∀ c ∈ l, jsWhitespace c = true → c = ' ' := by
        intro c hc hw
        have h := List.all_eq_true.mp hsp0 c hc
        simp [hw] at h
        exact h
      have hallowed := List.all_eq_true.mp hall
      have hmap1 : l.map (fun c => if isStructuralChar c then ' ' else c) = l := by
        have h : ∀ c ∈ l, (if isStructuralChar c then ' ' else c) = id c := by
          intro c hc
          have h := hallowed c hc
          rw [allowedChar, Bool.not_eq_true', Bool.or_eq_false_iff] at h
          simp [h.1]
        rw [List.map_congr_left h, List.map_id]
      have hmap2 : l.map (fun c => if isColonChar c then ' ' else c) = l := by
        have h : ∀ c ∈ l, (if isColonChar c then ' ' else c) = id c := by
          intro c hc
          have h := hallowed c hc
          rw [allowedChar, Bool.not_eq_true', Bool.or_eq_false_iff] at h
          simp [h.2]
        rw [List.map_congr_left h, List.map_id]
      have hh1 : ∀ c, l.head? = some c → jsWhitespace c = false := by
        intro c hc
        rw [hc] at hhead
        simpa using hhead
      have hh2 : ∀ c, l.getLast? = some c → jsWhitespace c = false := by
        intro c hc
        rw [hc] at hlast
        simpa using hlast
      show (if String.mk l = "" then "" else
        String.mk (trimWS (collapseWS
          ((l.map (fun c => if isStructuralChar c then ' ' else c)).map
            (fun c => if isColonChar c then ' ' else c))))) = String.mk l
      rw [if_neg hempty, hmap1, hmap2, collapseWS_eq_self l hsp hadj,
        trimWS_eq_self l hh1 hh2]
  · intro s hne hall
    obtain ⟨l⟩ := s
    have hlne : l ≠ [] := fun h => hne (by subst h; rfl)
    have hmap : (l.map (fun c => if isStructuralChar c then ' ' else c)).map
        (fun c => if isColonChar c then ' ' else c) = l.map (fun _ => ' ') := by
      rw [List.map_map]
      apply List.map_congr_left
      intro c hc
      have h := List.all_eq_true.mp hall c hc
      rw [Bool.or_eq_true] at h
      rcases h with h | h
      · simp [Function.comp, h]
      · cases hs : isStructuralChar c with
        | true => simp [Function.comp, hs]
        | false => simp [Function.comp, hs, h]
    have hmapne : l.map (fun _ => ' ') ≠ ([] : List Char) := by
      intro h
      exact hlne (List.map_eq_nil_iff.mp h)
    have hmapsp : ∀ c ∈ l.map (fun _ => ' '), c = ' ' := by
      intro c hc
      obtain ⟨a, _, rfl⟩ := List.mem_map.mp hc
      rfl
    show (if String.mk l = "" then "" else
      String.mk (trimWS (collapseWS
        ((l.map (fun c => if isStructuralChar c then ' ' else c)).map
          (fun c => if isColonChar c then ' ' else c))))) = ""
    rw [if_neg hne, hmap, collapseWS_all_space _ hmapne hmapsp]
    rfl
  · intro s vt cfg e h
    simp [dispatchSpeak, h]

/-- C9 counterexample: the message `"a  b"` contains no disallowed
character, yet sanitizing does not return the identical text — the double
space collapses to a single one; likewise an interior ideographic space
U+3000 (matched by the JS `\s` class) is rewritten to a plain space. -/
theorem C9_counterexample :
    "a  b".data.all allowedChar = true ∧
    sanitizeForTTS "a  b" ≠ "a  b" ∧
    sanitizeForTTS "a  b" = "a b" ∧
    "你　好".data.all allowedChar = true ∧
    sanitizeForTTS "你　好" ≠ "你　好" ∧
    sanitizeForTTS "你　好" = "你 好" := by
  refine ⟨by decide, by decide, by decide, by decide, by decide, by decide⟩

/-- Witness for C9's amended statement on concrete messages. -/
theorem C9_witness :
    ("你好 朋友".data.all allowedChar = true ∧ tidySpacing "你好 朋友".data = true ∧
      sanitizeForTTS "你好 朋友" = "你好 朋友") ∧
    ("[]：:" ≠ "" ∧
      "[]：:".data.all (fun c => isStructuralChar c || isColonChar c) = true ∧
      sanitizeForTTS "[]：:" = "") ∧
    (sanitizeForTTS "::" = "" ∧ dispatchSpeak "::" .ai true .success = []) :=
  ⟨⟨by decide, by decide, C9_sanitize_roundtrip.1 "你好 朋友" (by decide) (by decide)⟩,
    ⟨by decide, by decide, C9_sanitize_roundtrip.2.1 "[]：:" (by decide) (by decide)⟩,
    ⟨by decide, C9_sanitize_roundtrip.2.2 "::" .ai true .success (by decide)⟩⟩
